import Mathlib

/-!
Verification development for the `pyIPATool-WebUI` App Store client
(`src/ipatool_api/services/`).  The Python source is shallowly embedded:
pure fragments become Lean functions, exceptions become `Except`,
scripted HTTP responses replace the network, and file effects of the
repackager become explicit state passing.  Property-list values carried
by requests and responses are modelled by the inductive `PVal`; archive
entry contents are byte lists, with plist-holding entries kept in parsed
form (`EntryData.plist`), which models `plistlib.loads` as the partial
function that succeeds exactly on such entries.
-/

set_option maxHeartbeats 1000000

namespace IPATool

/-- Property-list / JSON-ish values as produced by `plistlib.loads` and
`response.json()` in the source.  Dictionaries are association lists in
insertion order, matching Python `dict` iteration. -/
inductive PVal where
  | str (s : String)
  | int (n : Int)
  | bool (b : Bool)
  | bytes (b : List Nat)
  | arr (xs : List PVal)
  | dict (kvs : List (String × PVal))
deriving Repr

/-- Python truthiness (`if x:`) for the modelled values. -/
def PVal.truthy : PVal → Bool
  | .str s => s != ""
  | .int n => n != 0
  | .bool b => b
  | .bytes b => !b.isEmpty
  | .arr xs => !xs.isEmpty
  | .dict kvs => !kvs.isEmpty

/-- Python `x == "c"` where `x` is an arbitrary value and `"c"` a string
constant: true exactly when `x` is that string. -/
def PVal.eqStr : PVal → String → Bool
  | .str s, t => s == t
  | _, _ => false

/-- First binding of `k` in an association list (Python `dict` lookup;
keys are unique in every dict the source builds). -/
def kvFind (kvs : List (String × PVal)) (k : String) : Option PVal :=
  (kvs.find? (fun kv => kv.1 == k)).map (·.2)

/-- Python `d.get(k, default)`. -/
def kvGetD (kvs : List (String × PVal)) (k : String) (dflt : PVal) : PVal :=
  (kvFind kvs k).getD dflt

/-- Python `str(x)` as used by f-string interpolation of plist values.
The paths the claims exercise interpolate genuine strings. -/
def PVal.fstr : PVal → String
  | .str s => s
  | .int n => toString n
  | _ => ""

/-- Truthiness of Python `Optional[str]` (`None` and `""` are falsy). -/
def optStrTruthy : Option String → Bool
  | none => false
  | some s => s != ""

/-- Structural check that the second character list begins the first
(kept primitive-recursive, like the helpers below, so that closed
instances evaluate inside proofs). -/
def charsBeginWith : List Char → List Char → Bool
  | _, [] => true
  | [], _ :: _ => false
  | c :: cs, d :: ds => c == d && charsBeginWith cs ds

/-- Python `s.endswith(t)`. -/
def strEndsWith (s t : String) : Bool :=
  charsBeginWith s.data.reverse t.data.reverse

/-- Containment of `pat` as a contiguous run. -/
def charsContain : List Char → List Char → Bool
  | [], pat => pat.isEmpty
  | c :: rest, pat => charsBeginWith (c :: rest) pat || charsContain rest pat

/-- Python `t in s` (substring containment). -/
def strContains (s t : String) : Bool :=
  charsContain s.data t.data

/-- Split a character list at every occurrence of `sep` (Python
`str.split` with a one-character separator). -/
def splitChars (sep : Char) : List Char → List (List Char)
  | [] => [[]]
  | c :: rest =>
    match splitChars sep rest with
    | g :: gs => if c == sep then [] :: g :: gs else (c :: g) :: gs
    | [] => [[c]]

/-- Python `s.split(sep)` for a one-character separator. -/
def strSplitOnChar (sep : Char) (s : String) : List String :=
  (splitChars sep s.data).map String.mk

/-- Python `str.lower()`. -/
def strLower (s : String) : String :=
  String.mk (s.data.map Char.toLower)

/-- Python `sep.join(parts)`. -/
def strJoinSep (sep : String) : List String → String
  | [] => ""
  | [x] => x
  | x :: xs => x ++ sep ++ strJoinSep sep xs

/-- Python `s.replace(" ", "")`. -/
def stripSpaces (s : String) : String :=
  String.mk (s.data.filter (fun c => c != ' '))

/-! ### Constants

`services/constants.py` is imported throughout the source but is not
present under `src/`; the constants below are therefore modelled from
the spec (§4.2, §6): opaque endpoint strings and the exact sentinel
failure codes / customer messages the protocol layer must recognize. -/

/-- Modelled from the spec: private App Store host (`constants.py` is
absent from `src/`); an opaque non-empty string. -/
def PRIVATE_APPSTORE_HOST : String := "buy.itunes.apple.com"

/-- Modelled from the spec: private authentication endpoint path. -/
def PRIVATE_AUTH_PATH : String := "/WebObjects/MZFinance.woa/wa/authenticate"

/-- Modelled from the spec: private purchase endpoint path. -/
def PRIVATE_PURCHASE_PATH : String := "/WebObjects/MZFinance.woa/wa/buyProduct"

/-- Modelled from the spec: private download endpoint path. -/
def PRIVATE_DOWNLOAD_PATH : String := "/WebObjects/MZFinance.woa/wa/volumeStoreDownloadProduct"

/-- Modelled from the spec: public catalog host. -/
def ITUNES_API_DOMAIN : String := "itunes.apple.com"

/-- Modelled from the spec: public catalog search path. -/
def ITUNES_API_SEARCH_PATH : String := "/search"

/-- Modelled from the spec: public catalog lookup path. -/
def ITUNES_API_LOOKUP_PATH : String := "/lookup"

/-- Modelled from the spec: the `invalid-credentials` failure code
sentinel (attempt-1 retry quirk, §6). -/
def FAILURE_INVALID_CREDENTIALS : String := "-5000"

/-- Modelled from the spec: the password-token-expired failure code. -/
def FAILURE_PASSWORD_TOKEN_EXPIRED : String := "2034"

/-- Modelled from the spec: the license-not-found failure code. -/
def FAILURE_LICENSE_NOT_FOUND : String := "9610"

/-- Modelled from the spec: the temporarily-unavailable failure code. -/
def FAILURE_TEMPORARILY_UNAVAILABLE : String := "2059"

/-- Modelled from the spec: the bad-login customer message sentinel that
triggers `AuthCodeRequired` (a non-empty exact string). -/
def CUSTOMER_MESSAGE_BAD_LOGIN : String := "MZFinance.BadLogin.Configurator_message"

/-- Modelled from the spec: the account-disabled customer message. -/
def CUSTOMER_MESSAGE_ACCOUNT_DISABLED : String := "Your account is disabled."

/-- Modelled from the spec: the subscription-required customer message. -/
def CUSTOMER_MESSAGE_SUBSCRIPTION_REQUIRED : String := "This item is available with an Apple Arcade subscription."

/-- Modelled from the spec: the storefront response header name (§6). -/
def HTTP_HEADER_STOREFRONT : String := "X-Apple-Store-Front"

/-- Modelled from the spec: the appstore pricing parameter. -/
def PRICING_PARAM_APPSTORE : String := "STDQ"

/-- Modelled from the spec: the alternate (arcade) pricing parameter. -/
def PRICING_PARAM_ARCADE : String := "GAME"

/-- Modelled from the spec: the storefront→country table of
`constants.py` (absent from `src/`), keyed by country code with the
numeric storefront value; the US row carries the spec's example value
`143441`. -/
def STORE_FRONTS : List (String × String) := [("US", "143441"), ("GB", "143444")]

/-- Modelled from the spec: the JSON response-format marker
(`constants.ResponseFormatJSON`). -/
def ResponseFormatJSON : String := "json"

/-- Modelled from the spec: the property-list response-format marker
(`constants.ResponseFormatXML`). -/
def ResponseFormatXML : String := "xml"

/-- Modelled from the spec: the default `User-Agent` header value. -/
def DEFAULT_USER_AGENT : String := "Configurator/2.15 (Macintosh; OS X 11.0.0; 16G29) AppleWebKit/2603.3.8"

/-! ### HTTP results (`http_client.HTTPResult`) -/

/-- `http_client.HTTPResult`: status code, response headers and decoded
body.  The decoded body is a `PVal`; the service layer reads it as a
dictionary (every response the source consumes decodes to a plist/JSON
dictionary, and a 3xx response carries the empty dictionary). -/
structure HTTPResult where
  statusCode : Int
  headers : List (String × String)
  data : PVal
deriving Repr

/-- `HTTPResult.get_header`: case-insensitive lookup of the first
matching header; Python raises `KeyError` when absent, modelled as
`none`. -/
def HTTPResult.getHeader (r : HTTPResult) (key : String) : Option String :=
  (r.headers.find? (fun kv => strLower kv.1 == strLower key)).map (·.2)

/-- `result.data.get(k, dflt)` at the service layer, where `data` is a
decoded dictionary.  (A non-dictionary body would crash the Python
attribute lookup; every response the claims exercise is a dictionary.) -/
def HTTPResult.dataGetD (r : HTTPResult) (k : String) (dflt : PVal) : PVal :=
  match r.data with
  | .dict kvs => kvGetD kvs k dflt
  | _ => dflt

/-! ### Login state machine (`AppStoreService.login`,
`AppStoreService._parse_login_response`) -/

/-- Terminal login outcomes, one constructor per distinct
`AppStoreError` raise site of the login path (identified by its
message). -/
inductive LoginErr where
  | authCodeRequired
  | accountDisabled
  | authenticationFailed (message : String)
  | invalidResponse
  | tooManyAttempts
  | missingStorefront
deriving Repr, DecidableEq

/-- `models.Account`. -/
structure Account where
  email : String
  passwordToken : String
  directoryServicesId : String
  name : String
  storeFront : String
  password : Option String := none
deriving Repr, DecidableEq

/-- `AppStoreService._parse_login_response` (appstore.py:365-397):
returns `(retry, redirect_url)` or a terminal error. -/
def parseLoginResponse (result : HTTPResult) (attempt : Nat) (authCode : Option String) :
    Except LoginErr (Bool × Option String) :=
  let status := result.statusCode
  let failureType := result.dataGetD "failureType" (.str "")
  let customerMessage := result.dataGetD "customerMessage" (.str "")
  if status == 301 || status == 302 || status == 303 || status == 307 || status == 308 then
    match result.getHeader "Location" with
    | some loc => .ok (true, some loc)
    | none => .ok (true, none)
  else if attempt == 1 && failureType.eqStr FAILURE_INVALID_CREDENTIALS then
    .ok (true, none)
  else if !failureType.truthy && !optStrTruthy authCode
      && customerMessage.eqStr CUSTOMER_MESSAGE_BAD_LOGIN then
    .error .authCodeRequired
  else if !failureType.truthy && customerMessage.eqStr CUSTOMER_MESSAGE_ACCOUNT_DISABLED then
    .error .accountDisabled
  else if failureType.truthy && customerMessage.truthy then
    .error (.authenticationFailed customerMessage.fstr)
  else if failureType.truthy then
    .error (.authenticationFailed "authentication failed")
  else if status != 200 || !(result.dataGetD "passwordToken" (.str "")).truthy
      || !(result.dataGetD "dsPersonId" (.str "")).truthy then
    .error .invalidResponse
  else
    .ok (false, none)

/-- The default authentication URL (appstore.py:87). -/
def defaultAuthUrl : String :=
  "https://" ++ PRIVATE_APPSTORE_HOST ++ PRIVATE_AUTH_PATH

/-- One login POST as recorded for the trace: its URL and the plist
payload of appstore.py:77-86 (the fixed `Content-Type` header is
common to every attempt and not repeated here). -/
structure LoginRequest where
  url : String
  payload : List (String × String)
deriving Repr, DecidableEq

/-- The plist payload built on each attempt (appstore.py:77-86). -/
def loginPayload (email password : String) (authCode : Option String)
    (guid : String) (attempt : Nat) : List (String × String) :=
  [ ("appleId", email),
    ("attempt", toString attempt),
    ("guid", guid),
    ("password", password ++ stripSpaces (authCode.getD "")),
    ("rmp", "0"),
    ("why", "signIn") ]

/-- The `for attempt in range(1, 5)` loop of `login`
(appstore.py:76-112), driven by a script `responses` giving the result
of the `i`-th issued request (0-indexed).  Returns the trace of issued
requests together with the last result if the loop exits without
`retry`, the parse error if one attempt fails terminally, or
`tooManyAttempts` when all four attempts end in retry
(appstore.py:111-112). -/
def loginGo (responses : Nat → HTTPResult) (email password : String)
    (authCode : Option String) (guid : String) :
    Nat → Nat → Option String → List LoginRequest →
    List LoginRequest × Except LoginErr HTTPResult
  | 0, _, _, reqs => (reqs, .error .tooManyAttempts)
  | remaining + 1, attempt, redirectUrl, reqs =>
    let url := redirectUrl.getD defaultAuthUrl
    let result := responses reqs.length
    let reqs' := reqs ++ [⟨url, loginPayload email password authCode guid attempt⟩]
    match parseLoginResponse result attempt authCode with
    | .error e => (reqs', .error e)
    | .ok (true, newRedirect) =>
        loginGo responses email password authCode guid remaining (attempt + 1) newRedirect reqs'
    | .ok (false, _) => (reqs', .ok result)

/-- Account construction from the final login response
(appstore.py:114-128): storefront from the response header (missing ⇒
error), fields from `data`, email falling back to the supplied one. -/
def buildAccount (result : HTTPResult) (email password : String) :
    Except LoginErr Account :=
  match result.getHeader HTTP_HEADER_STOREFRONT with
  | none => .error .missingStorefront
  | some storeFront =>
    let accountInfo := match result.dataGetD "accountInfo" (.dict []) with
      | .dict kvs => kvs
      | _ => []
    let address := match kvGetD accountInfo "address" (.dict []) with
      | .dict kvs => kvs
      | _ => []
    let firstName := kvFind address "firstName"
    let lastName := kvFind address "lastName"
    let nameParts := ([firstName, lastName].filterMap id).filter (fun v => v.truthy)
    .ok
      { email := (kvGetD accountInfo "appleId" (.str email)).fstr
        name := strJoinSep " " (nameParts.map PVal.fstr)
        passwordToken := (result.dataGetD "passwordToken" (.str "")).fstr
        directoryServicesId := (result.dataGetD "dsPersonId" (.str "")).fstr
        storeFront := storeFront
        password := some password }

/-- `AppStoreService.login` (appstore.py:69-131) against a scripted
transport: the trace of issued requests plus either the built `Account`
or the terminal error.  Persistence of the account
(`_persist_account`) is a side effect outside this function's claims. -/
def login (responses : Nat → HTTPResult) (email password : String)
    (authCode : Option String) (guid : String) :
    List LoginRequest × Except LoginErr Account :=
  match loginGo responses email password authCode guid 4 1 none [] with
  | (reqs, .error e) => (reqs, .error e)
  | (reqs, .ok result) => (reqs, buildAccount result email password)

/-! ### Catalog, purchase and download request phases
(`AppStoreService.search` / `purchase` / `download`)

Each operation is modelled against scripted responses and returns the
list of wire requests it issued, so that "fails before issuing a
network call" is the statement that the trace is empty. -/

/-- Service-layer terminal errors, one constructor per raise site
(identified by the raised class / message). -/
inductive AppErr where
  | unknownStorefront (storeFront : String)
  | notFound
  | purchaseNotSupported
  | temporarilyUnavailable
  | subscriptionRequired
  | passwordTokenExpired
  | licenseRequired
  | purchaseFailed (message : String)
  | alreadyLicensed
  | purchaseIncomplete
  | downloadFailed (message : String)
  | invalidResponse
  | typeError
deriving Repr, DecidableEq

/-- A wire request as issued by the service layer: method, URL, headers
and the (unserialized) plist payload. -/
structure WireRequest where
  method : String
  url : String
  headers : List (String × String)
  payload : List (String × PVal)
deriving Repr

/-- `models.App`.  The Python `price` field is a float; the claims only
exercise zero/positive whole prices, modelled as `Int`. -/
structure App where
  id : Int
  bundleId : String := ""
  name : String := ""
  version : String := ""
  price : Int := 0
deriving Repr, DecidableEq

/-- Python `int(x)` on the modelled values (failure = `TypeError` /
`ValueError`). -/
def pyInt : PVal → Option Int
  | .int n => some n
  | .bool b => some (if b then 1 else 0)
  | .str s => s.toInt?
  | _ => none

/-- Python `x == n` against an int constant (`bool` compares as its
numeric value). -/
def PVal.eqInt : PVal → Int → Bool
  | .int n, m => n == m
  | .bool b, m => (if b then (1 : Int) else 0) == m
  | _, _ => false

/-- `App.from_dict` (models.py:49-56).  `int()` of a non-numeric value
is a crash, modelled as `typeError`. -/
def App.fromDict (d : List (String × PVal)) : Except AppErr App :=
  let trackId := match kvFind d "trackId" with
    | some v => if v.truthy then v else kvGetD d "id" (.int 0)
    | none => kvGetD d "id" (.int 0)
  let priceV := let p := kvGetD d "price" (.int 0); if p.truthy then p else .int 0
  match pyInt trackId, pyInt priceV with
  | some idv, some pr =>
      .ok { id := idv
            bundleId := (kvGetD d "bundleId" (.str "")).fstr
            name := (kvGetD d "trackName" (.str "")).fstr
            version := (kvGetD d "version" (.str "")).fstr
            price := pr }
  | _, _ => .error .typeError

/-- `models.SearchOutput`. -/
structure SearchOutput where
  count : Int
  results : List App
deriving Repr, DecidableEq

/-- `AppStoreService._country_code_from_storefront`
(appstore.py:399-404): first table row whose value equals the part of
the storefront before the first dash. -/
def countryCodeFromStorefront (storeFront : String) : Except AppErr String :=
  let pfx := (strSplitOnChar '-' storeFront).headD ""
  match STORE_FRONTS.find? (fun cv => cv.2 == pfx) with
  | some cv => .ok cv.1
  | none => .error (.unknownStorefront storeFront)

/-- `AppStoreService._build_query_url` (appstore.py:406-410); the
percent-encoding performed by `urlencode` is not modelled (no claim
reads it back). -/
def buildQueryUrl (path : String) (params : List (String × String)) : String :=
  "https://" ++ ITUNES_API_DOMAIN ++ path ++ "?" ++
    strJoinSep "&" (params.map (fun kv => kv.1 ++ "=" ++ kv.2))

/-- The list comprehension of appstore.py:170 over `results`. -/
def appsFromItems : List PVal → Except AppErr (List App)
  | [] => .ok []
  | item :: rest =>
    match item with
    | .dict kvs =>
      match App.fromDict kvs, appsFromItems rest with
      | .ok a, .ok as' => .ok (a :: as')
      | .error e, _ => .error e
      | _, .error e => .error e
    | _ => .error .typeError

/-- `AppStoreService.search` (appstore.py:149-171) against one scripted
response.  The storefront→country derivation precedes the request; no
authentication-state check exists on this path. -/
def search (account : Account) (term : String) (lim : Int)
    (includeTvos : Bool) (resp : HTTPResult) :
    List WireRequest × Except AppErr SearchOutput :=
  match countryCodeFromStorefront account.storeFront with
  | .error e => ([], .error e)
  | .ok country =>
    let entity :=
      if includeTvos then "software,iPadSoftware" ++ ",tvSoftware"
      else "software,iPadSoftware"
    let url := buildQueryUrl ITUNES_API_SEARCH_PATH
      [("entity", entity), ("limit", toString lim), ("media", "software"),
       ("term", term), ("country", country)]
    let req : WireRequest := ⟨"GET", url, [], []⟩
    let items := match resp.dataGetD "results" (.arr []) with
      | .arr xs => xs
      | _ => []
    match appsFromItems items with
    | .error e => ([req], .error e)
    | .ok apps =>
      match pyInt (resp.dataGetD "resultCount" (.int apps.length)) with
      | some c => ([req], .ok ⟨c, apps⟩)
      | none => ([req], .error .typeError)

/-- `AppStoreService.lookup` (appstore.py:173-194) against one scripted
response. -/
def lookup (account : Account) (bundleId : String) (resp : HTTPResult) :
    List WireRequest × Except AppErr App :=
  match countryCodeFromStorefront account.storeFront with
  | .error e => ([], .error e)
  | .ok country =>
    let url := buildQueryUrl ITUNES_API_LOOKUP_PATH
      [("entity", "software,iPadSoftware"), ("limit", "1"),
       ("media", "software"), ("bundleId", bundleId), ("country", country)]
    let req : WireRequest := ⟨"GET", url, [], []⟩
    match resp.dataGetD "results" (.arr []) with
    | .arr [] => ([req], .error .notFound)
    | .arr (item :: _) =>
      (match item with
       | .dict kvs => ([req], App.fromDict kvs)
       | _ => ([req], .error .typeError))
    | _ => ([req], .error .typeError)

/-- `AppStoreService._purchase_with_params` (appstore.py:210-255)
against one scripted response: the issued request and the validation
outcome. -/
def purchaseWithParams (account : Account) (app : App) (guid : String)
    (pricing : String) (resp : HTTPResult) : WireRequest × Except AppErr Unit :=
  let payload : List (String × PVal) :=
    [ ("appExtVrsId", .str "0"),
      ("hasAskedToFulfillPreorder", .str "true"),
      ("buyWithoutAuthorization", .str "true"),
      ("hasDoneAgeCheck", .str "true"),
      ("guid", .str guid),
      ("needDiv", .str "0"),
      ("origPage", .str ("Software-" ++ toString app.id)),
      ("origPageLocation", .str "Buy"),
      ("price", .str "0"),
      ("pricingParameters", .str pricing),
      ("productType", .str "C"),
      ("salableAdamId", .int app.id) ]
  let req : WireRequest :=
    ⟨"POST", "https://" ++ PRIVATE_APPSTORE_HOST ++ PRIVATE_PURCHASE_PATH,
      [("iCloud-DSID", account.directoryServicesId),
       ("X-Dsid", account.directoryServicesId),
       ("X-Apple-Store-Front", account.storeFront),
       ("X-Token", account.passwordToken)],
      payload⟩
  let failureType := resp.dataGetD "failureType" (.str "")
  let customerMessage := resp.dataGetD "customerMessage" (.str "")
  if failureType.eqStr FAILURE_TEMPORARILY_UNAVAILABLE then
    (req, .error .temporarilyUnavailable)
  else if customerMessage.eqStr CUSTOMER_MESSAGE_SUBSCRIPTION_REQUIRED then
    (req, .error .subscriptionRequired)
  else if failureType.eqStr FAILURE_PASSWORD_TOKEN_EXPIRED then
    (req, .error .passwordTokenExpired)
  else if failureType.truthy then
    (req, .error (.purchaseFailed
      (if customerMessage.truthy then customerMessage.fstr else "purchase failed")))
  else if resp.statusCode == 500 then
    (req, .error .alreadyLicensed)
  else
    let jdt := match resp.data with
      | .dict kvs => kvFind kvs "jingleDocType"
      | _ => none
    let status := match resp.data with
      | .dict kvs => kvFind kvs "status"
      | _ => none
    let jdtOk := match jdt with
      | some v => v.eqStr "purchaseSuccess"
      | none => false
    let statusOk := match status with
      | some v => v.eqInt 0
      | none => false
    if !jdtOk || !statusOk then (req, .error .purchaseIncomplete)
    else (req, .ok ())

/-- `AppStoreService.purchase` (appstore.py:200-208) against scripted
responses for the first attempt and the arcade retry.  The only
pre-network guard is the paid-app price check. -/
def purchase (account : Account) (app : App) (guid : String)
    (resp1 resp2 : HTTPResult) : List WireRequest × Except AppErr Unit :=
  if app.price > 0 then ([], .error .purchaseNotSupported)
  else
    match purchaseWithParams account app guid PRICING_PARAM_APPSTORE resp1 with
    | (req1, .error .temporarilyUnavailable) =>
      let (req2, r2) := purchaseWithParams account app guid PRICING_PARAM_ARCADE resp2
      ([req1, req2], r2)
    | (req1, r1) => ([req1], r1)

/-- Modelled from the spec: the host piece prepended to the private
host for download requests (`constants.PRIVATE_HOST_PREFIX_WITHOUT_CODE`,
absent from `src/`); an opaque string. -/
def PRIVATE_DOWNLOAD_HOST_PART : String := "p25"

/-- `AppStoreService._send_download_request` (appstore.py:433-459): the
wire request it issues. -/
def sendDownloadRequest (account : Account) (app : App) (guid : String)
    (externalVersionId : Option String) : WireRequest :=
  let host := PRIVATE_DOWNLOAD_HOST_PART ++ "-" ++ PRIVATE_APPSTORE_HOST
  let payload : List (String × PVal) :=
    [ ("creditDisplay", .str ""), ("guid", .str guid),
      ("salableAdamId", .int app.id) ] ++
    (match externalVersionId with
     | some v => if v ≠ "" then [("externalVersionId", .str v)] else []
     | none => [])
  ⟨"POST", "https://" ++ host ++ PRIVATE_DOWNLOAD_PATH ++ "?guid=" ++ guid,
    [("iCloud-DSID", account.directoryServicesId),
     ("X-Dsid", account.directoryServicesId)],
    payload⟩

/-- `AppStoreService._validate_download_result` (appstore.py:461-472). -/
def validateDownloadResult (resp : HTTPResult) : Except AppErr Unit :=
  let failureType := resp.dataGetD "failureType" (.str "")
  let customerMessage := resp.dataGetD "customerMessage" (.str "")
  if failureType.eqStr FAILURE_PASSWORD_TOKEN_EXPIRED then
    .error .passwordTokenExpired
  else if failureType.eqStr FAILURE_LICENSE_NOT_FOUND then
    .error .licenseRequired
  else if failureType.truthy && customerMessage.truthy then
    .error (.downloadFailed customerMessage.fstr)
  else if failureType.truthy then
    .error (.downloadFailed ("download failed (" ++ failureType.fstr ++ ")"))
  else
    .ok ()

/-- The request/validation phase of `AppStoreService.download`
(appstore.py:257-272) against one scripted response, up to the
extraction of the first `songList` item; the subsequent archive
streaming and patching are file effects beyond this phase and outside
the claims over it.  No authentication-state check precedes the
request. -/
def downloadRequestPhase (account : Account) (app : App) (guid : String)
    (externalVersionId : Option String) (resp : HTTPResult) :
    List WireRequest × Except AppErr PVal :=
  let req := sendDownloadRequest account app guid externalVersionId
  match validateDownloadResult resp with
  | .error e => ([req], .error e)
  | .ok () =>
    match resp.dataGetD "songList" (.arr []) with
    | .arr [] => ([req], .error .invalidResponse)
    | .arr (item :: _) => ([req], .ok item)
    | _ => ([req], .error .typeError)

/-! ### Transport (`http_client.HTTPClient.send` / `raw_request`) -/

/-- Request payloads (`http_client.Payload` subclasses), kept in
unserialized form; serialization only fixes the bytes and the default
content type. -/
inductive ReqPayload where
  | xml (content : List (String × PVal))
  | form (content : List (String × PVal))
deriving Repr

/-- The default content type `Payload.serialize` returns
(http_client.py:61,70). -/
def ReqPayload.defaultContentType : ReqPayload → String
  | .xml _ => "application/x-apple-plist"
  | .form _ => "application/x-www-form-urlencoded"

/-- `http_client.HTTPRequest`. -/
structure TransportRequest where
  method : String
  url : String
  headers : List (String × String)
  payload : Option ReqPayload
  responseFormat : String
  followRedirects : Bool := true

/-- The scripted outcome of `session.request`: either an HTTP response
(status, headers, raw body bytes) or a transport-level exception
(`requests.RequestException`). -/
inductive TransportOutcome where
  | resp (statusCode : Int) (headers : List (String × String)) (body : List Nat)
  | netError
deriving Repr, DecidableEq

/-- Transport failures: `HTTPClientResponseError` (carrying status,
headers and body) and `requests.RequestException`. -/
inductive SendErr where
  | protocolError (statusCode : Int) (headers : List (String × String)) (body : List Nat)
  | networkError
deriving Repr, DecidableEq

/-- The observable outcome of one `HTTPClient.send` call: the headers
actually sent (after defaulting), whether the cookie store was saved,
and the returned result or raised error. -/
structure SendResult where
  sentHeaders : List (String × String)
  cookieSaved : Bool
  result : Except SendErr HTTPResult
deriving Repr

/-- True when some header key equals `k` case-insensitively
(http_client.py:86,92). -/
def hasHeaderCI (headers : List (String × String)) (k : String) : Bool :=
  headers.any (fun kv => kv.1.toLower == k.toLower)

/-- `HTTPClient.send` (http_client.py:81-140).  The JSON and plist
decoders (`response.json()`, `plistlib.loads`) are external partial
functions passed as parameters; the `session.request` call is replaced
by its scripted outcome.  The cookie save at http_client.py:107 runs
only once `session.request` has returned. -/
def send (jsonDecode plistDecode : List Nat → Option PVal)
    (req : TransportRequest) (outcome : TransportOutcome) : SendResult :=
  let headers₁ :=
    if !hasHeaderCI req.headers "User-Agent" then
      req.headers ++ [("User-Agent", DEFAULT_USER_AGENT)]
    else req.headers
  let headers₂ :=
    match req.payload with
    | some p =>
      if !hasHeaderCI headers₁ "Content-Type" then
        headers₁ ++ [("Content-Type", p.defaultContentType)]
      else headers₁
    | none => headers₁
  match outcome with
  | .netError => ⟨headers₂, false, .error .networkError⟩
  | .resp status respHeaders body =>
    let parsed : Except SendErr PVal :=
      if 300 ≤ status ∧ status < 400 then .ok (.dict [])
      else if req.responseFormat == ResponseFormatJSON then
        match jsonDecode body with
        | some v => .ok v
        | none => .error (.protocolError status respHeaders body)
      else if req.responseFormat == ResponseFormatXML then
        match plistDecode body with
        | some v => .ok v
        | none => .error (.protocolError status respHeaders body)
      else .error (.protocolError status respHeaders body)
    ⟨headers₂, true, parsed.map (fun v => ⟨status, respHeaders, v⟩)⟩

/-- `HTTPClient.raw_request` (http_client.py:142-145): issues the
request and saves cookies once it returns; a transport-level exception
propagates before the save. -/
def rawRequest (outcome : TransportOutcome) :
    Bool × Except SendErr (Int × List (String × String) × List Nat) :=
  match outcome with
  | .netError => (false, .error .networkError)
  | .resp status headers body => (true, .ok (status, headers, body))

/-! ### Account serialization (`models.Account.to_dict` / `from_dict`) -/

/-- The JSON object persisted for an account: string values plus `null`
for an absent password. -/
abbrev JDict := List (String × Option String)

/-- `Account.to_dict` (models.py:29-37). -/
def Account.toDict (a : Account) : JDict :=
  [ ("email", some a.email),
    ("passwordToken", some a.passwordToken),
    ("directoryServicesIdentifier", some a.directoryServicesId),
    ("name", some a.name),
    ("storeFront", some a.storeFront),
    ("password", a.password) ]

/-- First binding of `k` in a JSON object. -/
def jdictFind (d : JDict) (k : String) : Option (Option String) :=
  (d.find? (fun kv => kv.1 == k)).map (·.2)

/-- `Account.from_dict` (models.py:19-27).  The five string fields are
string-typed on the dataclass and string-valued in every dictionary the
source serializes; a present-but-null value there is outside the
modelled domain and coerced to the default. -/
def Account.fromDict (d : JDict) : Account :=
  { email := ((jdictFind d "email").getD (some "")).getD ""
    passwordToken := ((jdictFind d "passwordToken").getD (some "")).getD ""
    directoryServicesId :=
      ((jdictFind d "directoryServicesIdentifier").getD (some "")).getD ""
    name := ((jdictFind d "name").getD (some "")).getD ""
    storeFront := ((jdictFind d "storeFront").getD (some "")).getD ""
    password := (jdictFind d "password").getD none }

/-! ### Credential store (`keychain.FileKeychain.remove`,
`AppStoreService.revoke`) -/

/-- The keychain's in-memory map from key to stored blob; the on-disk
JSON file mirrors it after every `_persist`. -/
def KeychainData := String → Option String

/-- `FileKeychain.remove` (keychain.py:53-57): delete the binding and
persist only when the key is present.  The boolean records whether
`_persist` ran. -/
def keychainRemove (d : KeychainData) (key : String) : KeychainData × Bool :=
  if (d key).isSome then
    (fun x => if x == key then none else d x, true)
  else (d, false)

/-- `AppStoreService.revoke` (appstore.py:142-143). -/
def revoke (d : KeychainData) : KeychainData × Bool :=
  keychainRemove d "account"

/-! ### Repackager (`AppStoreService.replicate_sinf` and helpers) -/

/-- Contents of one archive entry: raw bytes, or a property list kept
in parsed form.  `plistlib.loads` succeeds exactly on the latter. -/
inductive EntryData where
  | raw (bytes : List Nat)
  | plist (v : PVal)
deriving Repr

/-- `plistlib.loads` on entry contents (raises on non-plist data,
modelled as `none`). -/
def plistLoads : EntryData → Option PVal
  | .plist v => some v
  | .raw _ => none

/-- `zipfile.ZIP_DEFLATED`. -/
def ZIP_DEFLATED : Nat := 8

/-- The timestamp a freshly constructed `zipfile.ZipInfo` carries. -/
def zipInfoDefaultDateTime : List Nat := [1980, 1, 1, 0, 0, 0]

/-- One archive entry with the attributes the source reads or writes:
name, contents, compression mode, external attributes, timestamp, plus
the flag bits a fresh `ZipInfo` resets (not copied by
`_replicate_zip`). -/
structure ZipEntry where
  filename : String
  data : EntryData
  compressType : Nat := ZIP_DEFLATED
  externalAttr : Nat := 0
  dateTime : List Nat := zipInfoDefaultDateTime
  flagBits : Nat := 0
deriving Repr

/-- An archive is its entry list in order (`ZipFile.infolist`). -/
abbrev Zip := List ZipEntry

/-- `AppStoreService._replicate_zip` (appstore.py:533-540): each entry
is rewritten through a fresh `ZipInfo` carrying the original name,
bytes, compression mode, external attributes and timestamp. -/
def replicateZip (src : Zip) : Zip :=
  src.map fun e =>
    { filename := e.filename, data := e.data, compressType := e.compressType,
      externalAttr := e.externalAttr, dateTime := e.dateTime, flagBits := 0 }

/-- Repackaging failures, one constructor per raise site of the
`replicate_sinf` path; `parseError` and `typeError` stand for the
`plistlib` / attribute exceptions that propagate uncaught. -/
inductive RepErr where
  | bundleNameNotFound
  | noManifestOrInfoPlist
  | missingSignature
  | missingExecutableName
  | parseError
  | typeError
deriving Repr, DecidableEq

/-- `models.Sinf`. -/
structure Sinf where
  id : Int
  data : List Nat
deriving Repr, DecidableEq

/-- The filename filter of `_read_manifest_plist` (appstore.py:553). -/
def isManifestEntry (f : String) : Bool :=
  strEndsWith f ".app/SC_Info/Manifest.plist"

/-- The filename filter of `_read_info_plist` / `_read_bundle_name`
(appstore.py:560,567): an `.app/Info.plist` entry not under a
`/Watch/` path segment. -/
def isInfoPlistEntry (f : String) : Bool :=
  strEndsWith f ".app/Info.plist" && !strContains f "/Watch/"

/-- `AppStoreService._read_manifest_plist` (appstore.py:551-556). -/
def readManifestPlist (z : Zip) : Except RepErr (Option PVal) :=
  match z.find? (fun e => isManifestEntry e.filename) with
  | some e =>
    (match plistLoads e.data with
     | some v => .ok (some v)
     | none => .error .parseError)
  | none => .ok none

/-- `AppStoreService._read_info_plist` (appstore.py:558-563). -/
def readInfoPlist (z : Zip) : Except RepErr (Option PVal) :=
  match z.find? (fun e => isInfoPlistEntry e.filename) with
  | some e =>
    (match plistLoads e.data with
     | some v => .ok (some v)
     | none => .error .parseError)
  | none => .ok none

/-- `Path(f).parent.name`: the next-to-last `/`-separated segment. -/
def parentDirName (f : String) : String :=
  let segs := strSplitOnChar '/' f
  if segs.length < 2 then "" else segs.getD (segs.length - 2) ""

/-- `AppStoreService._read_bundle_name` (appstore.py:565-570): parent
directory name of the first matching `Info.plist` entry, or the
`could not determine bundle name` error. -/
def readBundleName (z : Zip) : Except RepErr String :=
  match z.find? (fun e => isInfoPlistEntry e.filename) with
  | some e => .ok (parentDirName e.filename)
  | none => .error .bundleNameNotFound

/-- A new signature entry as written by `writestr` through a fresh
`ZipInfo` with `compress_type = ZIP_DEFLATED`
(appstore.py:582-584,599-601). -/
def mkSinfEntry (path : String) (bytes : List Nat) : ZipEntry :=
  { filename := path, data := .raw bytes, compressType := ZIP_DEFLATED,
    externalAttr := 0, dateTime := zipInfoDefaultDateTime, flagBits := 0 }

/-- Python truthiness of the `Optional` parsed plist
(`if manifest:` / `elif info:` at appstore.py:297-299). -/
def pvalOptTruthy : Option PVal → Bool
  | some v => v.truthy
  | none => false

/-- `AppStoreService._replicate_sinf_from_manifest`
(appstore.py:572-584): pair the supplied Sinfs positionally with the
manifest's `SinfPaths` (`zip` truncates at the shorter list) and emit
one new entry per pair.  A non-dictionary manifest or a `SinfPaths`
value that is not a plist array would crash the attribute/iteration
protocol, modelled as `typeError`. -/
def replicateSinfFromManifest (bundleName : String) (manifest : PVal)
    (sinfs : List Sinf) : Except RepErr (List ZipEntry) :=
  match manifest with
  | .dict kvs =>
    (match kvGetD kvs "SinfPaths" (.arr []) with
     | .arr paths =>
       .ok ((sinfs.zip paths).map fun sp =>
         mkSinfEntry ("Payload/" ++ bundleName ++ ".app/" ++ sp.2.fstr) sp.1.data)
     | _ => .error .typeError)
  | _ => .error .typeError

/-- `AppStoreService._replicate_sinf_from_info` (appstore.py:586-601):
requires at least one Sinf (writes only the first) and a truthy
`CFBundleExecutable`. -/
def replicateSinfFromInfo (bundleName : String) (infoPlist : PVal)
    (sinfs : List Sinf) : Except RepErr (List ZipEntry) :=
  match sinfs with
  | [] => .error .missingSignature
  | s0 :: _ =>
    match infoPlist with
    | .dict kvs =>
      (match kvFind kvs "CFBundleExecutable" with
       | none => .error .missingExecutableName
       | some v =>
         if !v.truthy then .error .missingExecutableName
         else .ok [mkSinfEntry
           ("Payload/" ++ bundleName ++ ".app/SC_Info/" ++ v.fstr ++ ".sinf")
           s0.data])
    | _ => .error .typeError

/-- The archive transform inside the `with` block of
`AppStoreService.replicate_sinf` (appstore.py:289-302): copy every
entry, then dispatch on the (truthiness of the) parsed manifest and
Info.plist, in the source's order — bundle-name derivation runs before
that dispatch. -/
def replicateSinfEntries (src : Zip) (sinfs : List Sinf) : Except RepErr Zip :=
  let copied := replicateZip src
  match readBundleName src with
  | .error e => .error e
  | .ok bundleName =>
    match readManifestPlist src with
    | .error e => .error e
    | .ok manifestOpt =>
      match readInfoPlist src with
      | .error e => .error e
      | .ok infoOpt =>
        if pvalOptTruthy manifestOpt then
          match replicateSinfFromManifest bundleName (manifestOpt.getD (.dict [])) sinfs with
          | .ok newEntries => .ok (copied ++ newEntries)
          | .error e => .error e
        else if pvalOptTruthy infoOpt then
          match replicateSinfFromInfo bundleName (infoOpt.getD (.dict [])) sinfs with
          | .ok newEntries => .ok (copied ++ newEntries)
          | .error e => .error e
        else .error .noManifestOrInfoPlist

/-- The two filesystem locations `replicate_sinf` touches: the archive
at `package_path` and the temporary file beside it. -/
structure FSState where
  source : Zip
  temp : Option Zip
deriving Repr

/-- `AppStoreService.replicate_sinf` (appstore.py:285-305) as a state
transformer on those two locations.  The temp file is (re)written
inside the `with` block; only after the block completes without error
is the original unlinked and the temp renamed over it, so on any error
the exception propagates with the source file untouched (the closed
temp file holds the copied entries). -/
def replicateSinfFS (fs : FSState) (sinfs : List Sinf) :
    FSState × Except RepErr Unit :=
  match replicateSinfEntries fs.source sinfs with
  | .error e => ({ fs with temp := some (replicateZip fs.source) }, .error e)
  | .ok out => ({ source := out, temp := none }, .ok ())

/-- The redirect statuses `_parse_login_response` recognizes
(appstore.py:373). -/
def isRedirectStatus (s : Int) : Bool :=
  s == 301 || s == 302 || s == 303 || s == 307 || s == 308

/-- A login response satisfying the success path of
`_parse_login_response`: HTTP 200, no failure code, no customer
message, truthy `passwordToken` and `dsPersonId`. -/
def CleanLoginSuccess (r : HTTPResult) : Prop :=
  r.statusCode = 200 ∧
  r.dataGetD "failureType" (.str "") = .str "" ∧
  r.dataGetD "customerMessage" (.str "") = .str "" ∧
  (r.dataGetD "passwordToken" (.str "")).truthy = true ∧
  (r.dataGetD "dsPersonId" (.str "")).truthy = true

/-! ## Theorems -/

/-- On a redirect status, `_parse_login_response` requests a retry
carrying the `Location` header as the new target (absent header ⇒ no
target). -/
theorem parseLoginResponse_redirect (r : HTTPResult) (attempt : Nat)
    (ac : Option String) (h : isRedirectStatus r.statusCode = true) :
    parseLoginResponse r attempt ac = .ok (true, r.getHeader "Location") := by
  unfold isRedirectStatus at h
  simp only [parseLoginResponse, h]
  cases hl : r.getHeader "Location" <;> simp [hl]

/-- On an attempt other than the first, a clean success response ends
the login loop without a retry. -/
theorem parseLoginResponse_success (r : HTTPResult) (attempt : Nat)
    (ac : Option String) (h : CleanLoginSuccess r)
    (ha : (attempt == 1) = false) :
    parseLoginResponse r attempt ac = .ok (false, none) := by
  obtain ⟨h200, hft, hcm, hpt, hds⟩ := h
  have e1 : (PVal.str "").truthy = false := rfl
  have e2 : (PVal.str "").eqStr CUSTOMER_MESSAGE_BAD_LOGIN = false := rfl
  have e3 : (PVal.str "").eqStr CUSTOMER_MESSAGE_ACCOUNT_DISABLED = false := rfl
  have e4 : (PVal.str "").eqStr FAILURE_INVALID_CREDENTIALS = false := rfl
  simp [parseLoginResponse, h200, hft, hcm, hpt, hds, ha, e1, e2, e3, e4]

/-- The login loop issues at most `remaining` further requests. -/
theorem loginGo_length_le (responses : Nat → HTTPResult) (e p : String)
    (ac : Option String) (g : String) :
    ∀ (remaining attempt : Nat) (ru : Option String) (reqs : List LoginRequest),
      (loginGo responses e p ac g remaining attempt ru reqs).1.length ≤
        reqs.length + remaining := by
  intro remaining
  induction remaining with
  | zero => intro attempt ru reqs; simp [loginGo]
  | succ n ih =>
    intro attempt ru reqs
    simp only [loginGo]
    cases hp : parseLoginResponse (responses reqs.length) attempt ac with
    | error err => simp
    | ok pr =>
      obtain ⟨retry, ru2⟩ := pr
      cases retry with
      | false => simp
      | true =>
        have hrec := ih (attempt + 1) ru2
          (reqs ++ [⟨ru.getD defaultAuthUrl, loginPayload e p ac g attempt⟩])
        simp only [List.length_append, List.length_cons, List.length_nil] at hrec ⊢
        omega

/-- C1: the login state machine issues at most 4 requests: on a
scripted redirect → redirect → success sequence it issues exactly 3
requests and returns the account built from the 3rd response; on 4
consecutive unresolved redirects it fails with the
`too many login attempts` error (`TooManyAttempts`) after exactly 4
requests, never issuing a 5th. -/
theorem login_attempt_bound
    (r0 r1 r2 s0 s1 s2 s3 : HTTPResult)
    (email password guid sf : String) (authCode : Option String)
    (h0 : isRedirectStatus r0.statusCode = true)
    (h1 : isRedirectStatus r1.statusCode = true)
    (h2 : CleanLoginSuccess r2)
    (hsf : r2.getHeader HTTP_HEADER_STOREFRONT = some sf)
    (g0 : isRedirectStatus s0.statusCode = true)
    (g1 : isRedirectStatus s1.statusCode = true)
    (g2 : isRedirectStatus s2.statusCode = true)
    (g3 : isRedirectStatus s3.statusCode = true) :
    ((login (fun n => [r0, r1, r2].getD n r2) email password authCode guid).1.length = 3 ∧
      (login (fun n => [r0, r1, r2].getD n r2) email password authCode guid).2 =
        buildAccount r2 email password ∧
      ∃ acct, buildAccount r2 email password = .ok acct) ∧
    ((login (fun n => [s0, s1, s2, s3].getD n s3) email password authCode guid).1.length = 4 ∧
      (login (fun n => [s0, s1, s2, s3].getD n s3) email password authCode guid).2 =
        .error .tooManyAttempts) ∧
    (∀ responses, (login responses email password authCode guid).1.length ≤ 4) := by
  have p0 := parseLoginResponse_redirect r0 1 authCode h0
  have p1 := parseLoginResponse_redirect r1 2 authCode h1
  have p2 := parseLoginResponse_success r2 3 authCode h2 rfl
  have q0 := parseLoginResponse_redirect s0 1 authCode g0
  have q1 := parseLoginResponse_redirect s1 2 authCode g1
  have q2 := parseLoginResponse_redirect s2 3 authCode g2
  have q3 := parseLoginResponse_redirect s3 4 authCode g3
  refine ⟨⟨?_, ?_, ?_⟩, ⟨?_, ?_⟩, ?_⟩
  · simp [login, loginGo, p0, p1, p2, List.getD]
  · simp [login, loginGo, p0, p1, p2, List.getD]
  · unfold buildAccount
    rw [hsf]
    exact ⟨_, rfl⟩
  · simp [login, loginGo, q0, q1, q2, q3, List.getD]
  · simp [login, loginGo, q0, q1, q2, q3, List.getD]
  · intro responses
    have hb := loginGo_length_le responses email password authCode guid 4 1 none []
    rcases hres : loginGo responses email password authCode guid 4 1 none [] with ⟨reqs, res⟩
    rw [hres] at hb
    simp only [List.length_nil, Nat.zero_add] at hb
    unfold login
    rw [hres]
    cases res <;> simpa using hb

/-- Witness for C1 on a concrete redirect → redirect → success script
(and four concrete redirects). -/
theorem login_attempt_bound_witness :
    (login (fun n =>
      [⟨302, [("Location", "https://redir.example/a")], .dict []⟩,
        ⟨302, [("Location", "https://redir.example/b")], .dict []⟩,
        ⟨200, [("X-Apple-Store-Front", "143441-19,32")],
          .dict [("passwordToken", .str "tok"), ("dsPersonId", .str "42")]⟩].getD n
        ⟨200, [("X-Apple-Store-Front", "143441-19,32")],
          .dict [("passwordToken", .str "tok"), ("dsPersonId", .str "42")]⟩)
      "user@example.com" "pw" none "GUID").1.length = 3 :=
  (login_attempt_bound
    ⟨302, [("Location", "https://redir.example/a")], .dict []⟩
    ⟨302, [("Location", "https://redir.example/b")], .dict []⟩
    ⟨200, [("X-Apple-Store-Front", "143441-19,32")],
      .dict [("passwordToken", .str "tok"), ("dsPersonId", .str "42")]⟩
    ⟨302, [], .dict []⟩ ⟨302, [], .dict []⟩ ⟨302, [], .dict []⟩ ⟨302, [], .dict []⟩
    "user@example.com" "pw" "GUID" "143441-19,32" none
    rfl rfl ⟨rfl, rfl, rfl, rfl, rfl⟩ rfl rfl rfl rfl rfl).1.1

/-- C7 counterexample: after a redirect to a non-default URL, a 3xx
response without a `Location` header sends the next attempt to the
default authentication endpoint, not to the previous request URL — the
code resets `redirect_url` to `None` instead of keeping it. -/
theorem login_redirect_without_location_counterexample :
    (login (fun n =>
      [⟨302, [("Location", "https://redirected.example/auth")], .dict []⟩,
        ⟨302, [], .dict []⟩,
        ⟨200, [("X-Apple-Store-Front", "143441-19,32")],
          .dict [("passwordToken", .str "tok"), ("dsPersonId", .str "42")]⟩].getD n
        ⟨200, [("X-Apple-Store-Front", "143441-19,32")],
          .dict [("passwordToken", .str "tok"), ("dsPersonId", .str "42")]⟩)
      "user@example.com" "pw" none "GUID").1.map (fun q => q.url) =
      [defaultAuthUrl, "https://redirected.example/auth", defaultAuthUrl] ∧
    defaultAuthUrl ≠ "https://redirected.example/auth" :=
  ⟨rfl, by decide⟩

/-- C7 (amended): during login, a 3xx response without a `Location`
header clears the stored redirect target, so the next attempt posts to
the default authentication endpoint; this coincides with the previous
request URL only when no redirect target had been set. -/
theorem login_redirect_without_location_uses_default
    (r0 r1 r2 : HTTPResult) (loc : String)
    (email password guid : String) (authCode : Option String)
    (h0 : isRedirectStatus r0.statusCode = true)
    (hl0 : r0.getHeader "Location" = some loc)
    (h1 : isRedirectStatus r1.statusCode = true)
    (hl1 : r1.getHeader "Location" = none)
    (h2 : CleanLoginSuccess r2) :
    (login (fun n => [r0, r1, r2].getD n r2) email password authCode guid).1.map
      (fun q => q.url) = [defaultAuthUrl, loc, defaultAuthUrl] := by
  have p0 := parseLoginResponse_redirect r0 1 authCode h0
  have p1 := parseLoginResponse_redirect r1 2 authCode h1
  have p2 := parseLoginResponse_success r2 3 authCode h2 rfl
  rw [hl0] at p0
  rw [hl1] at p1
  simp [login, loginGo, p0, p1, p2, List.getD]

/-- Witness for C7's amended theorem on the concrete script. -/
theorem login_redirect_without_location_uses_default_witness :
    (login (fun n =>
      [⟨302, [("Location", "https://target.example/auth")], .dict []⟩,
        ⟨303, [], .dict []⟩,
        ⟨200, [("X-Apple-Store-Front", "143441-19,32")],
          .dict [("passwordToken", .str "tok"), ("dsPersonId", .str "42")]⟩].getD n
        ⟨200, [("X-Apple-Store-Front", "143441-19,32")],
          .dict [("passwordToken", .str "tok"), ("dsPersonId", .str "42")]⟩)
      "user@example.com" "pw" none "GUID").1.map (fun q => q.url) =
      [defaultAuthUrl, "https://target.example/auth", defaultAuthUrl] :=
  login_redirect_without_location_uses_default
    ⟨302, [("Location", "https://target.example/auth")], .dict []⟩
    ⟨303, [], .dict []⟩
    ⟨200, [("X-Apple-Store-Front", "143441-19,32")],
      .dict [("passwordToken", .str "tok"), ("dsPersonId", .str "42")]⟩
    "https://target.example/auth" "user@example.com" "pw" "GUID" none
    rfl rfl rfl rfl ⟨rfl, rfl, rfl, rfl, rfl⟩

/-- C9: for every `Account` value, deserializing its serialized form
round-trips to an equal value — all six fields (`email`,
`passwordToken`, `directoryServicesIdentifier`, `name`, `storeFront`,
`password`) are preserved by `Account.from_dict ∘ Account.to_dict`. -/
theorem account_serialization_roundtrip (a : Account) :
    Account.fromDict a.toDict = a := by
  cases a
  rfl

/-- C10: `revoke` (logout) is total and idempotent on the credential
store: removing the `account` key when it is absent succeeds and leaves
the store unchanged (and skips the persist), and revoking twice leaves
the same store as revoking once. -/
theorem revoke_total_idempotent (d : KeychainData) :
    (d "account" = none → revoke d = (d, false)) ∧
    (revoke (revoke d).1).1 = (revoke d).1 := by
  constructor
  · intro h
    simp [revoke, keychainRemove, h]
  · by_cases h : (d "account").isSome
    · simp only [revoke, keychainRemove, h, if_true]
      simp
    · simp [revoke, keychainRemove, h]

/-- Witness for C10 at the empty store. -/
theorem revoke_total_idempotent_witness :
    revoke (fun _ => none) = (fun _ => none, false) :=
  (revoke_total_idempotent (fun _ => none)).1 rfl

/-- C8 counterexample: an exchange that ends in a transport-level
failure (`requests.RequestException` out of `session.request`) returns
without saving the cookie state — the save at http_client.py:107 runs
only after `session.request` returns, refuting "every exchange —
success, decode failure, or transport-level failure — triggers a
save". -/
theorem send_transport_failure_skips_save :
    (send (fun _ => none) (fun _ => none)
      ⟨"GET", "https://apps.example/x", [], none, ResponseFormatJSON, true⟩
      .netError).cookieSaved = false ∧
    (send (fun _ => none) (fun _ => none)
      ⟨"GET", "https://apps.example/x", [], none, ResponseFormatJSON, true⟩
      .netError).result = .error .networkError :=
  ⟨rfl, rfl⟩

/-- C8 (amended): every exchange that receives an HTTP response —
success or decode failure — saves the cookie state before control
returns; a transport-level failure propagates before the save, so no
save occurs on that path. -/
theorem send_saves_cookies_iff_response_received
    (jd pd : List Nat → Option PVal) (req : TransportRequest)
    (status : Int) (respHeaders : List (String × String)) (body : List Nat) :
    (send jd pd req (.resp status respHeaders body)).cookieSaved = true ∧
    (send jd pd req .netError).cookieSaved = false :=
  ⟨rfl, rfl⟩

/-- C6: `HTTPClient.send` fails with the protocol error (carrying
status, headers and body) exactly when the body cannot be decoded in
the requested encoding (JSON or property-list) and the status is not
3xx; for every 3xx status the result is a successful empty payload
regardless of the body. -/
theorem send_protocol_error_characterization
    (jd pd : List Nat → Option PVal) (req : TransportRequest)
    (status : Int) (respHeaders : List (String × String)) (body : List Nat) :
    ((300 ≤ status ∧ status < 400) →
      (send jd pd req (.resp status respHeaders body)).result =
        .ok ⟨status, respHeaders, .dict []⟩) ∧
    (¬ (300 ≤ status ∧ status < 400) → req.responseFormat = ResponseFormatJSON →
      ((send jd pd req (.resp status respHeaders body)).result =
          .error (.protocolError status respHeaders body) ↔ jd body = none)) ∧
    (¬ (300 ≤ status ∧ status < 400) → req.responseFormat = ResponseFormatXML →
      ((send jd pd req (.resp status respHeaders body)).result =
          .error (.protocolError status respHeaders body) ↔ pd body = none)) := by
  refine ⟨?_, ?_, ?_⟩
  · intro h
    simp [send, h, Except.map]
  · intro h hf
    cases hd : jd body <;> simp [send, h, hf, hd, Except.map]
  · intro h hf
    cases hd : pd body <;>
      simp [send, h, hf, hd, Except.map, ResponseFormatXML, ResponseFormatJSON]

/-- Witness for C6: a JSON-requested body that fails to decode on a
non-3xx status yields the protocol error. -/
theorem send_protocol_error_characterization_witness :
    (send (fun _ => none) (fun _ => some (.dict []))
      ⟨"POST", "https://p.example/y", [], none, ResponseFormatJSON, true⟩
      (.resp 200 [] [7])).result = .error (.protocolError 200 [] [7]) := by
  have h := send_protocol_error_characterization (fun _ => none)
    (fun _ => some (.dict []))
    ⟨"POST", "https://p.example/y", [], none, ResponseFormatJSON, true⟩ 200 [] [7]
  exact (h.2.1 (by decide) rfl).mpr rfl

/-- C2 counterexample: on an archive with neither a manifest nor an
`Info.plist` entry, `replicate_sinf` fails with the
`could not determine bundle name` error (`BundleNameNotFound`) raised
by `_read_bundle_name`, not with `NoManifestOrInfoPlist` as claimed —
bundle-name derivation (appstore.py:292) runs before the
manifest/Info.plist dispatch (appstore.py:297-302). -/
theorem replicate_sinf_no_plists_bundle_error :
    replicateSinfEntries
      [⟨"Payload/Foo.app/binary", .raw [1, 2, 3], ZIP_DEFLATED, 0,
        zipInfoDefaultDateTime, 0⟩] [] = .error .bundleNameNotFound ∧
    replicateSinfEntries
      [⟨"Payload/Foo.app/binary", .raw [1, 2, 3], ZIP_DEFLATED, 0,
        zipInfoDefaultDateTime, 0⟩] [] ≠ .error .noManifestOrInfoPlist :=
  ⟨rfl, fun h => RepErr.noConfusion (Except.error.inj h)⟩

/-- C2 (amended): for every archive containing neither an
application-bundle `SC_Info/Manifest.plist` entry nor an `Info.plist`
entry outside `/Watch/` paths, `replicate_sinf` fails with
`BundleNameNotFound` (bundle-name derivation precedes the
manifest/Info.plist dispatch; `NoManifestOrInfoPlist` is reachable only
when an `Info.plist` entry exists but both parsed plists are falsy). -/
theorem replicate_sinf_no_plists_fails (src : Zip) (sinfs : List Sinf)
    (_hman : ∀ e ∈ src, isManifestEntry e.filename = false)
    (hinfo : ∀ e ∈ src, isInfoPlistEntry e.filename = false) :
    replicateSinfEntries src sinfs = .error .bundleNameNotFound := by
  have h : src.find? (fun e => isInfoPlistEntry e.filename) = none :=
    List.find?_eq_none.mpr (fun e he => by simp [hinfo e he])
  simp [replicateSinfEntries, readBundleName, h]

/-- Witness for C2's amended theorem on a one-entry archive. -/
theorem replicate_sinf_no_plists_fails_witness :
    replicateSinfEntries
      [⟨"Payload/Bar.app/code", .raw [5], ZIP_DEFLATED, 0,
        zipInfoDefaultDateTime, 0⟩] [⟨1, [9]⟩] = .error .bundleNameNotFound :=
  replicate_sinf_no_plists_fails _ _
    (by intro e he; simp at he; subst he; rfl)
    (by intro e he; simp at he; subst he; rfl)

/-- C4 (the code lacks the claimed guard): with an account whose
`passwordToken` is empty (and a known storefront), `search`, `lookup`,
`purchase` of a free app and the `download` request phase each issue
their network request — no authentication-state check fails first; the
purchase request even carries the empty token in its `X-Token`
header. -/
theorem empty_token_calls_issue_network_request :
    (search ⟨"u@example.com", "", "123", "U", "143441-19,32", none⟩ "term" 5 false
      ⟨200, [], .dict []⟩).1.length = 1 ∧
    (lookup ⟨"u@example.com", "", "123", "U", "143441-19,32", none⟩ "com.x.y"
      ⟨200, [], .dict []⟩).1.length = 1 ∧
    (purchase ⟨"u@example.com", "", "123", "U", "143441-19,32", none⟩
      ⟨123, "com.x.y", "n", "1.0", 0⟩ "GUID"
      ⟨200, [], .dict []⟩ ⟨200, [], .dict []⟩).1.length = 1 ∧
    (∀ q ∈ (purchase ⟨"u@example.com", "", "123", "U", "143441-19,32", none⟩
      ⟨123, "com.x.y", "n", "1.0", 0⟩ "GUID"
      ⟨200, [], .dict []⟩ ⟨200, [], .dict []⟩).1,
        ("X-Token", "") ∈ q.headers) ∧
    (downloadRequestPhase ⟨"u@example.com", "", "123", "U", "143441-19,32", none⟩
      ⟨123, "com.x.y", "n", "1.0", 0⟩ "GUID" none
      ⟨200, [], .dict []⟩).1.length = 1 := by
  refine ⟨rfl, rfl, rfl, ?_, rfl⟩
  decide

/-- C3: `replicate_sinf` is copy-to-temp-then-atomic-replace: whenever
it fails the archive at `package_path` is untouched; the final archive
is only ever the original or the fully built output (never
half-written); and on the Info.plist fallback path with zero supplied
Sinfs it fails with `MissingSignature`, leaving the archive
untouched. -/
theorem replicate_sinf_atomic (fs : FSState) (sinfs : List Sinf)
    (mo : Option PVal) (iv : PVal) :
    (∀ e, (replicateSinfFS fs sinfs).2 = .error e →
      (replicateSinfFS fs sinfs).1.source = fs.source) ∧
    ((replicateSinfFS fs sinfs).1.source = fs.source ∨
      replicateSinfEntries fs.source sinfs =
        .ok ((replicateSinfFS fs sinfs).1.source)) ∧
    (readManifestPlist fs.source = .ok mo → pvalOptTruthy mo = false →
      readInfoPlist fs.source = .ok (some iv) → iv.truthy = true → sinfs = [] →
      (replicateSinfFS fs sinfs).2 = .error .missingSignature ∧
      (replicateSinfFS fs sinfs).1.source = fs.source) := by
  have part3 : readManifestPlist fs.source = .ok mo → pvalOptTruthy mo = false →
      readInfoPlist fs.source = .ok (some iv) → iv.truthy = true → sinfs = [] →
      replicateSinfEntries fs.source sinfs = .error .missingSignature := by
    intro hman hmt hinfo hit hsn
    subst hsn
    obtain ⟨en, hf⟩ :
        ∃ en, fs.source.find? (fun e => isInfoPlistEntry e.filename) = some en := by
      unfold readInfoPlist at hinfo
      revert hinfo
      cases hf : fs.source.find? (fun e => isInfoPlistEntry e.filename) with
      | none => intro h; exact Option.noConfusion (Except.ok.inj h)
      | some en => exact fun _ => ⟨en, rfl⟩
    have hbn : readBundleName fs.source = .ok (parentDirName en.filename) := by
      unfold readBundleName; rw [hf]
    simp only [replicateSinfEntries, hbn, hman, hinfo]
    rw [hmt]
    simp [pvalOptTruthy, hit, replicateSinfFromInfo]
  refine ⟨?_, ?_, ?_⟩
  · intro e he
    unfold replicateSinfFS at he ⊢
    cases hres : replicateSinfEntries fs.source sinfs with
    | error e2 => simp [hres]
    | ok out => rw [hres] at he; simp at he
  · unfold replicateSinfFS
    cases hres : replicateSinfEntries fs.source sinfs with
    | error e2 => left; rfl
    | ok out => right; simp [hres]
  · intro h1 h2 h3 h4 h5
    have hE := part3 h1 h2 h3 h4 h5
    unfold replicateSinfFS
    rw [hE]
    exact ⟨rfl, rfl⟩

/-- Witness for C3: an archive whose only plist is a truthy
`Info.plist`, with zero supplied Sinfs. -/
theorem replicate_sinf_atomic_witness :
    (replicateSinfFS
      ⟨[⟨"Payload/Foo.app/Info.plist",
          .plist (.dict [("CFBundleExecutable", .str "Foo")]), ZIP_DEFLATED, 0,
          zipInfoDefaultDateTime, 0⟩], none⟩ []).2 = .error .missingSignature :=
  ((replicate_sinf_atomic
      ⟨[⟨"Payload/Foo.app/Info.plist",
          .plist (.dict [("CFBundleExecutable", .str "Foo")]), ZIP_DEFLATED, 0,
          zipInfoDefaultDateTime, 0⟩], none⟩ []
      none (.dict [("CFBundleExecutable", .str "Foo")])).2.2
    rfl rfl rfl rfl rfl).1

/-- C5: on the manifest path, every original entry is copied with
unchanged bytes, compression mode, external attributes and timestamp,
and each `SinfPaths` entry is paired positionally with a supplied Sinf
(the shorter list truncating the pairing) and written as a new entry at
`Payload/` ++ bundleName ++ `.app/` ++ relativePath holding exactly
that Sinf's bytes. -/
theorem replicate_sinf_manifest_path (src : Zip) (sinfs : List Sinf)
    (bn : String) (kvs : List (String × PVal)) (pstrs : List String)
    (io : Option PVal)
    (hbn : readBundleName src = .ok bn)
    (hman : readManifestPlist src = .ok (some (.dict kvs)))
    (hne : kvs ≠ [])
    (hpaths : kvFind kvs "SinfPaths" = some (.arr (pstrs.map PVal.str)))
    (hinfo : readInfoPlist src = .ok io) :
    replicateSinfEntries src sinfs =
      .ok (replicateZip src ++ (sinfs.zip pstrs).map (fun sp =>
        mkSinfEntry ("Payload/" ++ bn ++ ".app/" ++ sp.2) sp.1.data)) ∧
    (∀ e ∈ src,
      (⟨e.filename, e.data, e.compressType, e.externalAttr, e.dateTime, 0⟩ : ZipEntry) ∈
        replicateZip src ++ (sinfs.zip pstrs).map (fun sp =>
          mkSinfEntry ("Payload/" ++ bn ++ ".app/" ++ sp.2) sp.1.data)) ∧
    (replicateZip src ++ (sinfs.zip pstrs).map (fun sp =>
        mkSinfEntry ("Payload/" ++ bn ++ ".app/" ++ sp.2) sp.1.data)).length =
      src.length + min sinfs.length pstrs.length := by
  have hkempty : kvs.isEmpty = false := by
    cases kvs with
    | nil => exact absurd rfl hne
    | cons a l => rfl
  have htr : pvalOptTruthy (some (PVal.dict kvs)) = true := by
    simp [pvalOptTruthy, PVal.truthy, hkempty]
  refine ⟨?_, ?_, ?_⟩
  · simp only [replicateSinfEntries, hbn, hman, hinfo, htr, if_true]
    simp [replicateSinfFromManifest, kvGetD, hpaths, List.zip_map_right,
      List.map_map, Function.comp, PVal.fstr, Prod.map]
  · intro e he
    exact List.mem_append_left _ (List.mem_map_of_mem _ he)
  · simp [replicateZip, List.length_append, List.length_map, List.length_zip]

/-- Witness for C5: a two-entry archive (manifest + Info.plist) and one
supplied Sinf. -/
theorem replicate_sinf_manifest_path_witness :
    replicateSinfEntries
      [⟨"Payload/Foo.app/SC_Info/Manifest.plist",
          .plist (.dict [("SinfPaths", .arr [.str "SC_Info/Foo.sinf"])]),
          ZIP_DEFLATED, 0, zipInfoDefaultDateTime, 0⟩,
        ⟨"Payload/Foo.app/Info.plist",
          .plist (.dict [("CFBundleExecutable", .str "Foo")]),
          ZIP_DEFLATED, 0, zipInfoDefaultDateTime, 0⟩]
      [⟨1, [9, 9]⟩] =
      .ok (replicateZip
        [⟨"Payload/Foo.app/SC_Info/Manifest.plist",
            .plist (.dict [("SinfPaths", .arr [.str "SC_Info/Foo.sinf"])]),
            ZIP_DEFLATED, 0, zipInfoDefaultDateTime, 0⟩,
          ⟨"Payload/Foo.app/Info.plist",
            .plist (.dict [("CFBundleExecutable", .str "Foo")]),
            ZIP_DEFLATED, 0, zipInfoDefaultDateTime, 0⟩] ++
        (([⟨1, [9, 9]⟩] : List Sinf).zip ["SC_Info/Foo.sinf"]).map (fun sp =>
          mkSinfEntry ("Payload/" ++ "Foo.app" ++ ".app/" ++ sp.2) sp.1.data)) :=
  (replicate_sinf_manifest_path
    [⟨"Payload/Foo.app/SC_Info/Manifest.plist",
        .plist (.dict [("SinfPaths", .arr [.str "SC_Info/Foo.sinf"])]),
        ZIP_DEFLATED, 0, zipInfoDefaultDateTime, 0⟩,
      ⟨"Payload/Foo.app/Info.plist",
        .plist (.dict [("CFBundleExecutable", .str "Foo")]),
        ZIP_DEFLATED, 0, zipInfoDefaultDateTime, 0⟩]
    [⟨1, [9, 9]⟩] "Foo.app"
    [("SinfPaths", .arr [.str "SC_Info/Foo.sinf"])] ["SC_Info/Foo.sinf"]
    (some (.dict [("CFBundleExecutable", .str "Foo")]))
    rfl rfl (by simp) rfl rfl).1

end IPATool
